import Mathlib

set_option maxRecDepth 200000

/-
Verification of src/src/connection.rs, the transport core of the rust-chess
client. Rust strings handled by the TCP framing code are modelled at the byte
level (List Nat), because Rust's String::contains and String::replace operate
on the underlying UTF-8 bytes; elsewhere Lean String is used. Machine inputs
(socket reads, HTTP responses, operator input) are passed in as explicit event
data, and a RustOutcome value distinguishes a normal return, a Result::Err
value, a panic, and an operation that never returns.
-/

/-- Outcome of running one Rust function: a normal return, an Err value, a
panic (with its message), or no return at all, i.e. the function is still
blocked inside an I/O call after the supplied events are exhausted. -/
inductive RustOutcome (α : Type) where
  | ok : α → RustOutcome α
  | err : String → RustOutcome α
  | panicked : String → RustOutcome α
  | blocked : RustOutcome α
deriving DecidableEq, BEq

/-- True exactly on the Err variant of a RustOutcome. -/
def RustOutcome.isErr {α : Type} : RustOutcome α → Bool
  | RustOutcome.err _ => true
  | _ => false

/-- connection.rs line 23: retry budget for the http connection. It is bound
to a local variable by HttpConnection::wait_for_message and never used. -/
def RETRY_ATTEMPTS_HTTP : Int := 5

/-- Modelled from the spec: the protocol module (protocol::Message) is not
under src/; section 6 of the spec fixes the protocol text lines as "make_move"
followed by one token, "bye", and "bad_message". Only the verbs that
SelfConnection::wait_for_message formats are modelled. -/
inductive Message where
  | MakeMove : Message
  | Bye : Message
  | BadMessage : Message

/-- Modelled from the spec: the Display form of a protocol verb, one canonical
text form per variant. -/
def Message.toString : Message → String
  | Message.MakeMove => "make_move"
  | Message.Bye => "bye"
  | Message.BadMessage => "bad_message"

/-- EchoConnection::send_message (connection.rs 50-52): always true. -/
def EchoConnection.send_message (_message : String) : Bool := true

/-- EchoConnection::wait_for_message (connection.rs 55-57): fixed canned move. -/
def EchoConnection.wait_for_message : RustOutcome String :=
  RustOutcome.ok "make_move e7e5"

/-- EchoConnection::get_message (connection.rs 60-62): fixed placeholder. -/
def EchoConnection.get_message : RustOutcome String := RustOutcome.ok "Nothing"

/-- Code-point view of a Rust string; it coincides with the UTF-8 bytes for the
ASCII strings exchanged in the framing scenarios. -/
def strBytes (s : String) : List Nat := s.data.map Char.toNat

/-- TcpConnectionDelimiter::EndOfMessage displays as "\r\n" (connection.rs 78),
i.e. the bytes 13 10 on the wire. -/
def TcpConnectionDelimiter.endOfMessage : List Nat := [13, 10]

/-- message.contains of the delimiter (connection.rs 149): byte-level substring
test for the two-byte sequence CR LF. -/
def containsDelim : List Nat → Bool
  | [] => false
  | [_] => false
  | b :: c :: rest => (b == 13 && c == 10) || containsDelim (c :: rest)

/-- message.replace of the NUL character by "" (connection.rs 171): drops every
NUL byte. -/
def removeNulls (l : List Nat) : List Nat := l.filter (fun b => b != 0)

/-- str::replace of "\r\n" by "" (connection.rs 172): a single left-to-right
pass removing each non-overlapping occurrence of CR LF. -/
def removeDelim : List Nat → List Nat
  | [] => []
  | [b] => [b]
  | b :: c :: rest =>
    if b = 13 ∧ c = 10 then removeDelim rest else b :: removeDelim (c :: rest)

/-- The two replace calls applied to the accumulated buffer before returning
(connection.rs 170-172): NUL bytes are removed first, then the delimiter. -/
def stripMessage (l : List Nat) : List Nat := removeDelim (removeNulls l)

/-- One read into a fresh zero-filled 512-byte buffer (connection.rs 150-152):
the stream delivers chunk into the front of the buffer. The read count is
discarded by the source (the arm Ok(_)), so the rest of the loop body sees the
whole 512-byte buffer, delivered bytes followed by NUL padding. -/
def padChunk (chunk : List Nat) : List Nat :=
  chunk ++ List.replicate (512 - chunk.length) 0

/-- A UTF-8 continuation byte. -/
def isCont (b : Nat) : Bool := 128 ≤ b && b ≤ 191

/-- str::from_utf8 succeeds exactly on RFC 3629 UTF-8; surrogate code points
and overlong encodings are rejected. -/
def utf8Valid : List Nat → Bool
  | [] => true
  | b :: rest =>
    if b ≤ 127 then utf8Valid rest
    else if 194 ≤ b && b ≤ 223 then
      match rest with
      | c1 :: r => isCont c1 && utf8Valid r
      | [] => false
    else if b == 224 then
      match rest with
      | c1 :: c2 :: r => (160 ≤ c1 && c1 ≤ 191) && (isCont c2 && utf8Valid r)
      | _ => false
    else if (225 ≤ b && b ≤ 236) || (b == 238 || b == 239) then
      match rest with
      | c1 :: c2 :: r => isCont c1 && (isCont c2 && utf8Valid r)
      | _ => false
    else if b == 237 then
      match rest with
      | c1 :: c2 :: r => (128 ≤ c1 && c1 ≤ 159) && (isCont c2 && utf8Valid r)
      | _ => false
    else if b == 240 then
      match rest with
      | c1 :: c2 :: c3 :: r =>
        (144 ≤ c1 && c1 ≤ 191) && (isCont c2 && (isCont c3 && utf8Valid r))
      | _ => false
    else if 241 ≤ b && b ≤ 243 then
      match rest with
      | c1 :: c2 :: c3 :: r =>
        isCont c1 && (isCont c2 && (isCont c3 && utf8Valid r))
      | _ => false
    else if b == 244 then
      match rest with
      | c1 :: c2 :: c3 :: r =>
        (128 ≤ c1 && c1 ≤ 143) && (isCont c2 && (isCont c3 && utf8Valid r))
      | _ => false
    else false

/-- TcpConnection::send_message (connection.rs 126-143): appends the delimiter
to the outgoing text and performs one stream.write whose outcome is the write
argument; Ok maps to true, Err is printed and maps to false. -/
def TcpConnection.send_message (_message : String) (write : Except String Nat) : Bool :=
  match write with
  | Except.ok _ => true
  | Except.error _ => false

/-- TcpConnection::wait_for_message (connection.rs 146-175). reads lists the
outcomes of the successive stream.read calls (for Ok, the bytes the stream
delivered); message is the accumulation String viewed as bytes; fuel bounds how
many loop iterations are examined. The value blocked means that within the
given fuel and reads the function has not returned: it is still suspended
inside stream.read. Loop body order follows the source: the delimiter test is
the while condition; then a read (an Err panics), then str::from_utf8 over the
whole 512-byte buffer (a failure panics), then the decoded text is appended,
and finally a buffer whose first byte is NUL breaks out of the loop. On exit
the accumulated buffer is stripped and returned. -/
def TcpConnection.wait_for_message :
    Nat → List (Except String (List Nat)) → List Nat → RustOutcome (List Nat)
  | 0, _, _ => RustOutcome.blocked
  | fuel + 1, reads, message =>
    if containsDelim message then RustOutcome.ok (stripMessage message)
    else
      match reads with
      | [] => RustOutcome.blocked
      | Except.error err :: _ => RustOutcome.panicked ("Connection error: " ++ err)
      | Except.ok chunk :: rest =>
        let buffer := padChunk chunk
        if utf8Valid buffer then
          if buffer.head? == some 0 then RustOutcome.ok (stripMessage (message ++ buffer))
          else TcpConnection.wait_for_message fuel rest (message ++ buffer)
        else RustOutcome.panicked "Decoding error"

/-- TcpConnection::get_message (connection.rs 178-180): fixed empty text. -/
def TcpConnection.get_message : RustOutcome String := RustOutcome.ok ""

/-- SelfConnection::send_message (connection.rs 198-200): always true. -/
def SelfConnection.send_message (_message : String) : Bool := true

/-- SelfConnection::wait_for_message (connection.rs 202-218): value is the text
produced by the operator-input helper (outside src/). Rust's value.len() is the
UTF-8 byte length of the string, hence utf8ByteSize. -/
def SelfConnection.wait_for_message (value : String) : RustOutcome String :=
  if value = "exit" then RustOutcome.ok (Message.toString Message.Bye)
  else if value.utf8ByteSize ≠ 4 then RustOutcome.ok (Message.toString Message.BadMessage)
  else RustOutcome.ok (Message.toString Message.MakeMove ++ " " ++ value)

/-- SelfConnection::get_message (connection.rs 220-222): fixed placeholder. -/
def SelfConnection.get_message : RustOutcome String := RustOutcome.ok "Nothing"

/-- HttpConnection state (connection.rs 225-231). The reqwest client handle
carries no observable data and is omitted. -/
structure HttpConnection where
  endpoint : String
  name : String
  previous_message : String
  other_player : String
deriving DecidableEq

/-- One GET of the poll loop as the code observes it: either the request fails
in transport (and the unwrap on send panics), or it yields a status code and a
body. The body is the serde_json parse outcome; a parsed body carries the value
extracted by client of nextMessage, as_object, message, as_str — none when that
extraction fails (each unwrap panics). -/
inductive PollEvent where
  | transportError : String → PollEvent
  | response : Nat → Except String (Option String) → PollEvent

/-- HttpConnection::new (connection.rs 234-259): join is the outcome of the
join POST. A transport Err is returned as Err; on Ok, the outcome of res.text()
is unwrapped (a failure panics) and the connection state is built with
previous_message empty and other_player the constant "one". -/
def HttpConnection.new (endpoint : String) (client_name : String)
    (join : Except String (Option String)) : RustOutcome HttpConnection :=
  match join with
  | Except.error err => RustOutcome.err err
  | Except.ok none => RustOutcome.panicked "join response text failed"
  | Except.ok (some _result) => RustOutcome.ok ⟨endpoint, client_name, "", "one"⟩

/-- HttpConnection::send_message (connection.rs 263-271): posts the payload to
the per-client endpoint; the send outcome is unwrapped, so a transport failure
panics; otherwise it returns true with the state untouched. -/
def HttpConnection.send_message (c : HttpConnection) (_message : String)
    (send : Except String Unit) : RustOutcome (Bool × HttpConnection) :=
  match send with
  | Except.error err => RustOutcome.panicked err
  | Except.ok _ => RustOutcome.ok (true, c)

/-- The poll loop of HttpConnection::wait_for_message (connection.rs 276-313).
respond gives the event of the i-th GET of the polled URL, which the code
builds from self.endpoint and self.other_player each iteration. A transport
failure panics (unwrap on send); a server-error status (500-599) is only
printed and the body is still processed; a client-error status (400-499)
panics; a body parse failure panics; a missing or non-string
nextMessage.message panics; a message different from previous_message is stored
and returned; an unchanged one sleeps one second (real time is not modelled)
and polls again. -/
def HttpConnection.waitLoop :
    Nat → (String → Nat → PollEvent) → Nat → HttpConnection →
    RustOutcome (String × HttpConnection)
  | 0, _, _, _ => RustOutcome.blocked
  | fuel + 1, respond, i, c =>
    match respond (c.endpoint ++ "/clients/" ++ c.other_player) i with
    | PollEvent.transportError e => RustOutcome.panicked e
    | PollEvent.response status body =>
      if 400 ≤ status ∧ status ≤ 499 then
        RustOutcome.panicked ("Client error: " ++ toString status)
      else
        match body with
        | Except.error err => RustOutcome.panicked ("Bad response from server: " ++ err)
        | Except.ok none => RustOutcome.panicked "bad nextMessage in response"
        | Except.ok (some message) =>
          if message ≠ c.previous_message then
            RustOutcome.ok (message, ⟨c.endpoint, c.name, message, c.other_player⟩)
          else HttpConnection.waitLoop fuel respond (i + 1) c

/-- HttpConnection::wait_for_message (connection.rs 273-314): binds the unused
retry budget to a local variable and runs the poll loop from the first GET. -/
def HttpConnection.wait_for_message (fuel : Nat) (respond : String → Nat → PollEvent)
    (c : HttpConnection) : RustOutcome (String × HttpConnection) :=
  let _attempts : Int := RETRY_ATTEMPTS_HTTP
  HttpConnection.waitLoop fuel respond 0 c

/-- HttpConnection::get_message (connection.rs 316-318): fixed placeholder,
no transport operation and no state read. -/
def HttpConnection.get_message (_c : HttpConnection) : RustOutcome String :=
  RustOutcome.ok "Nothing"

/-- A poll event that repeats the payload prev with a status that is neither a
client error nor a transport failure: the loop neither returns nor panics on
such an event. -/
def unchangedPoll (prev : String) : PollEvent → Bool
  | PollEvent.response status (Except.ok (some m)) =>
    if 400 ≤ status ∧ status ≤ 499 then false else m == prev
  | _ => false

/-- The framed wire bytes of the section-8 split-read scenario. -/
def tcpFrame : String := "make_move e2e4\r\n"

/-- First read of the split at point 15: everything up to and including CR. -/
def splitChunk1 : List Nat := (strBytes tcpFrame).take 15

/-- Second read of the split at point 15: the lone LF byte. -/
def splitChunk2 : List Nat := (strBytes tcpFrame).drop 15

/-- A connection state after the relay handshake with one message delivered. -/
def cfg0 : HttpConnection := ⟨"http://relay", "two", "hello one", "one"⟩

/-- cfg0 after wait_for_message delivers "make_move e2e4". -/
def cfgAfter : HttpConnection := ⟨"http://relay", "two", "make_move e2e4", "one"⟩

/-- The state HttpConnection::new builds for endpoint "http://relay" and client
name "two". -/
def cfgNew : HttpConnection := ⟨"http://relay", "two", "", "one"⟩

/-- A peer that never changes its payload from the one cfg0 last delivered. -/
def constPoll : String → Nat → PollEvent :=
  fun _ _ => PollEvent.response 200 (Except.ok (some "hello one"))

/-- A peer whose current payload is a new move. -/
def movePoll : String → Nat → PollEvent :=
  fun _ _ => PollEvent.response 200 (Except.ok (some "make_move e2e4"))

/-- The loop returns blocked when the reads are exhausted and the buffer holds
no delimiter: the next stream.read never completes in the given scenario. -/
theorem tcp_blocked (fuel : Nat) (msg : List Nat) (h : containsDelim msg = false) :
    TcpConnection.wait_for_message fuel [] msg = RustOutcome.blocked := by
  cases fuel with
  | zero => rfl
  | succ n => simp [TcpConnection.wait_for_message, h]

/-- One successful loop iteration: no delimiter yet, a valid read whose first
byte is not NUL appends the padded buffer and continues. -/
theorem tcp_step (fuel : Nat) (chunk : List Nat) (rest : List (Except String (List Nat)))
    (msg : List Nat) (h1 : containsDelim msg = false)
    (h2 : utf8Valid (padChunk chunk) = true)
    (h3 : ((padChunk chunk).head? == some 0) = false) :
    TcpConnection.wait_for_message (fuel + 1) (Except.ok chunk :: rest) msg =
      TcpConnection.wait_for_message fuel rest (msg ++ padChunk chunk) := by
  simp [TcpConnection.wait_for_message, h1, h2, h3]

/-- A predicate true of every byte of a list survives the delimiter-removal
pass, which only drops bytes. -/
theorem removeDelim_all (p : Nat → Bool) :
    ∀ l : List Nat, l.all p = true → (removeDelim l).all p = true := by
  intro l
  induction l using removeDelim.induct with
  | case1 => intro h; exact h
  | case2 b => intro h; exact h
  | case3 b c rest hbc ih =>
    intro h
    rw [removeDelim, if_pos hbc]
    simp only [List.all_cons, Bool.and_eq_true] at h
    exact ih h.2.2
  | case4 b c rest hbc ih =>
    intro h
    rw [removeDelim, if_neg hbc]
    simp only [List.all_cons, Bool.and_eq_true] at h ⊢
    exact ⟨h.1, ih (by simp [List.all_cons, h.2.1, h.2.2])⟩

/-- The stripped buffer contains no NUL byte: the NUL filter removes them all
and the delimiter pass introduces none. -/
theorem stripMessage_no_nulls (l : List Nat) :
    (stripMessage l).all (fun b => b != 0) = true := by
  apply removeDelim_all
  rw [List.all_eq_true]
  intro b hb
  simp only [removeNulls] at hb
  have hp := List.of_mem_filter hb
  exact hp

/-- Inversion of the poll loop: a returned payload differs from the stored
previous_message, and the returned state is the old one with exactly the
previous_message field replaced by the returned payload. -/
theorem waitLoop_ok_inv (respond : String → Nat → PollEvent) (c : HttpConnection) :
    ∀ (fuel i : Nat) (m : String) (c' : HttpConnection),
      HttpConnection.waitLoop fuel respond i c = RustOutcome.ok (m, c') →
      m ≠ c.previous_message ∧ c' = ⟨c.endpoint, c.name, m, c.other_player⟩ := by
  intro fuel
  induction fuel with
  | zero =>
    intro i m c' h
    exact absurd h (by simp [HttpConnection.waitLoop])
  | succ n ih =>
    intro i m c' h
    simp only [HttpConnection.waitLoop] at h
    cases hev : respond (c.endpoint ++ "/clients/" ++ c.other_player) i with
    | transportError e =>
      rw [hev] at h
      exact absurd h (by simp)
    | response status body =>
      rw [hev] at h
      dsimp only at h
      by_cases hs : 400 ≤ status ∧ status ≤ 499
      · rw [if_pos hs] at h
        exact absurd h (by simp)
      · rw [if_neg hs] at h
        cases body with
        | error err => exact absurd h (by simp)
        | ok ob =>
          cases ob with
          | none => exact absurd h (by simp)
          | some msg =>
            dsimp only at h
            by_cases hm : msg ≠ c.previous_message
            · rw [if_pos hm] at h
              simp only [RustOutcome.ok.injEq, Prod.mk.injEq] at h
              obtain ⟨h1, h2⟩ := h
              subst h1
              exact ⟨hm, h2.symm⟩
            · rw [if_neg hm] at h
              exact ih (i + 1) m c' h

/-- An iteration whose poll repeats the stored payload with a benign status
neither returns nor panics: it only advances to the next poll. -/
theorem waitLoop_unchanged_step (fuel i : Nat) (respond : String → Nat → PollEvent)
    (c : HttpConnection)
    (h : unchangedPoll c.previous_message
      (respond (c.endpoint ++ "/clients/" ++ c.other_player) i) = true) :
    HttpConnection.waitLoop (fuel + 1) respond i c =
      HttpConnection.waitLoop fuel respond (i + 1) c := by
  simp only [HttpConnection.waitLoop]
  cases hev : respond (c.endpoint ++ "/clients/" ++ c.other_player) i with
  | transportError e =>
    rw [hev] at h
    simp [unchangedPoll] at h
  | response status body =>
    rw [hev] at h
    cases body with
    | error err => simp [unchangedPoll] at h
    | ok ob =>
      cases ob with
      | none => simp [unchangedPoll] at h
      | some m =>
        simp only [unchangedPoll] at h
        dsimp only
        by_cases hs : 400 ≤ status ∧ status ≤ 499
        · rw [if_pos hs] at h
          exact absurd h (by simp)
        · rw [if_neg hs] at h
          rw [if_neg hs]
          have hm : m = c.previous_message := eq_of_beq h
          rw [if_neg (fun hne => hne hm)]

/-- If every poll of the loop's URL repeats the stored payload, the loop never
returns, for every amount of fuel. -/
theorem waitLoop_unchanged_blocked (respond : String → Nat → PollEvent) (c : HttpConnection)
    (h : ∀ j, unchangedPoll c.previous_message
      (respond (c.endpoint ++ "/clients/" ++ c.other_player) j) = true) :
    ∀ fuel i, HttpConnection.waitLoop fuel respond i c = RustOutcome.blocked := by
  intro fuel
  induction fuel with
  | zero => intro i; rfl
  | succ n ih =>
    intro i
    rw [waitLoop_unchanged_step n i respond c (h i)]
    exact ih (i + 1)

/-- The poll loop consults its event source only at the URL built from the
connection's endpoint and other_player fields. -/
theorem waitLoop_url_only (respond respond' : String → Nat → PollEvent) (c : HttpConnection)
    (h : ∀ j, respond (c.endpoint ++ "/clients/" ++ c.other_player) j =
          respond' (c.endpoint ++ "/clients/" ++ c.other_player) j) :
    ∀ fuel i, HttpConnection.waitLoop fuel respond i c =
      HttpConnection.waitLoop fuel respond' i c := by
  intro fuel
  induction fuel with
  | zero => intro i; rfl
  | succ n ih =>
    intro i
    simp only [HttpConnection.waitLoop]
    rw [← h i]
    cases respond (c.endpoint ++ "/clients/" ++ c.other_player) i with
    | transportError e => rfl
    | response status body =>
      dsimp only
      by_cases hs : 400 ≤ status ∧ status ≤ 499
      · rw [if_pos hs, if_pos hs]
      · rw [if_neg hs, if_neg hs]
        cases body with
        | error err => rfl
        | ok ob =>
          cases ob with
          | none => rfl
          | some m =>
            dsimp only
            by_cases hm : m ≠ c.previous_message
            · rw [if_pos hm, if_pos hm]
            · rw [if_neg hm, if_neg hm]
              exact ih (i + 1)

/-- The poll loop never produces the Err variant. -/
theorem waitLoop_not_err (respond : String → Nat → PollEvent) (c : HttpConnection) :
    ∀ fuel i, (HttpConnection.waitLoop fuel respond i c).isErr = false := by
  intro fuel
  induction fuel with
  | zero => intro i; rfl
  | succ n ih =>
    intro i
    simp only [HttpConnection.waitLoop]
    cases respond (c.endpoint ++ "/clients/" ++ c.other_player) i with
    | transportError e => rfl
    | response status body =>
      dsimp only
      by_cases hs : 400 ≤ status ∧ status ≤ 499
      · rw [if_pos hs]
        rfl
      · rw [if_neg hs]
        cases body with
        | error err => rfl
        | ok ob =>
          cases ob with
          | none => rfl
          | some m =>
            dsimp only
            by_cases hm : m ≠ c.previous_message
            · rw [if_pos hm]
              rfl
            · rw [if_neg hm]
              exact ih (i + 1)

/-- The framing loop never produces the Err variant. -/
theorem tcpWait_not_err :
    ∀ (fuel : Nat) (reads : List (Except String (List Nat))) (msg : List Nat),
      (TcpConnection.wait_for_message fuel reads msg).isErr = false := by
  intro fuel
  induction fuel with
  | zero => intro reads msg; rfl
  | succ n ih =>
    intro reads msg
    simp only [TcpConnection.wait_for_message]
    by_cases hd : containsDelim msg = true
    · rw [if_pos hd]
      rfl
    · rw [if_neg hd]
      cases reads with
      | nil => rfl
      | cons r rest =>
        cases r with
        | error e => rfl
        | ok chunk =>
          dsimp only
          by_cases hu : utf8Valid (padChunk chunk) = true
          · rw [if_pos hu]
            by_cases hh : ((padChunk chunk).head? == some 0) = true
            · rw [if_pos hh]
              rfl
            · rw [if_neg hh]
              exact ih rest (msg ++ padChunk chunk)
          · rw [if_neg hu]
            rfl

/-- C1: the claim says that when the stream delivers "make_move e2e4\r\n"
split across two reads at an arbitrary split point, wait_for_message returns
exactly "make_move e2e4", for every split point. This holds for split points 1
to 14 (fuel 3: two reads plus the final while-condition test), but fails at
split point 15 (between CR and LF): the read count is discarded, so the
accumulation buffer receives the CR, then 497 padding NUL bytes, then the LF,
never contains the two-byte delimiter, and the loop stays blocked in a third
read for every amount of fuel. -/
theorem tcpSplitPointBehavior :
    (∀ k : Nat, k < 15 → 1 ≤ k →
        TcpConnection.wait_for_message 3
          [Except.ok ((strBytes tcpFrame).take k), Except.ok ((strBytes tcpFrame).drop k)]
          [] = RustOutcome.ok (strBytes "make_move e2e4")) ∧
    (∀ fuel : Nat,
        TcpConnection.wait_for_message fuel [Except.ok splitChunk1, Except.ok splitChunk2]
          [] = RustOutcome.blocked) := by
  constructor
  · decide
  · intro fuel
    rcases fuel with _ | n
    · rfl
    rcases n with _ | m
    · rfl
    rw [tcp_step (m + 1) splitChunk1 [Except.ok splitChunk2] [] (by decide) (by decide)
      (by decide)]
    rw [tcp_step m splitChunk2 [] ([] ++ padChunk splitChunk1) (by decide) (by decide)
      (by decide)]
    exact tcp_blocked m (([] ++ padChunk splitChunk1) ++ padChunk splitChunk2) (by decide)

/-- Witness for C1 at the concrete split point 7. -/
theorem tcpSplitPointBehavior_witness :
    (7 : Nat) < 15 ∧ 1 ≤ (7 : Nat) ∧
    TcpConnection.wait_for_message 3
      [Except.ok ((strBytes tcpFrame).take 7), Except.ok ((strBytes tcpFrame).drop 7)]
      [] = RustOutcome.ok (strBytes "make_move e2e4") :=
  ⟨by decide, by decide, tcpSplitPointBehavior.1 7 (by decide) (by decide)⟩

/-- C4 counterexample: HttpConnection::send_message does not report a transport
write failure as a boolean — the unwrap on send panics, so on a failed write no
boolean is returned at all. -/
theorem httpSendPanicsOnWriteFailure :
    HttpConnection.send_message cfg0 "make_move e2e4" (Except.error "connection refused") =
      RustOutcome.panicked "connection refused" := rfl

/-- C4 amended: the Echo, Tcp and Self backends report the send outcome as a
boolean and never raise — Echo and Self always return true, Tcp returns true
on a successful write and false on a write failure; the Http relay backend
returns true on success but panics on a transport write failure instead of
returning false. -/
theorem sendMessageOutcomes :
    (∀ m : String, EchoConnection.send_message m = true) ∧
    (∀ m : String, SelfConnection.send_message m = true) ∧
    (∀ (m : String) (n : Nat), TcpConnection.send_message m (Except.ok n) = true) ∧
    (∀ m e : String, TcpConnection.send_message m (Except.error e) = false) ∧
    (∀ (c : HttpConnection) (m : String),
        HttpConnection.send_message c m (Except.ok ()) = RustOutcome.ok (true, c)) ∧
    (∀ (c : HttpConnection) (m e : String),
        HttpConnection.send_message c m (Except.error e) = RustOutcome.panicked e) :=
  ⟨fun _ => rfl, fun _ => rfl, fun _ _ => rfl, fun _ _ => rfl, fun _ _ => rfl,
   fun _ _ _ => rfl⟩

/-- C5 counterexample: the input whose text is an e-acute followed by "2e4" has
exactly 4 characters and is not "exit", yet SelfConnection::wait_for_message
classifies it as BadMessage, not MakeMove: the length the code tests is the
UTF-8 byte length (here 5), not the character count. -/
theorem selfFourCharByteLength :
    ("é2e4" : String).length = 4 ∧
    (("é2e4" : String) == "exit") = false ∧
    ("é2e4" : String).utf8ByteSize = 5 ∧
    SelfConnection.wait_for_message "é2e4" = RustOutcome.ok (Message.toString Message.BadMessage) ∧
    ((Message.toString Message.BadMessage) ==
      (Message.toString Message.MakeMove ++ " " ++ "é2e4")) = false := by
  decide

/-- C5 amended: SelfConnection::wait_for_message classifies the operator input
as follows — the literal "exit" yields Bye; any other input whose UTF-8 byte
length is not exactly 4 yields BadMessage; any other input of UTF-8 byte
length exactly 4 yields MakeMove with the input as its argument. -/
theorem selfInputClassification :
    SelfConnection.wait_for_message "exit" = RustOutcome.ok (Message.toString Message.Bye) ∧
    (∀ v : String, v ≠ "exit" → v.utf8ByteSize ≠ 4 →
        SelfConnection.wait_for_message v = RustOutcome.ok (Message.toString Message.BadMessage)) ∧
    (∀ v : String, v ≠ "exit" → v.utf8ByteSize = 4 →
        SelfConnection.wait_for_message v =
          RustOutcome.ok (Message.toString Message.MakeMove ++ " " ++ v)) := by
  refine ⟨rfl, ?_, ?_⟩
  · intro v h1 h2
    simp only [SelfConnection.wait_for_message]
    rw [if_neg h1, if_pos h2]
  · intro v h1 h2
    simp only [SelfConnection.wait_for_message]
    rw [if_neg h1, if_neg (fun hne => hne h2)]

/-- Witness for C5 at the concrete inputs "abc" (3 bytes) and "e2e4" (4 bytes). -/
theorem selfInputClassification_witness :
    (("abc" : String) ≠ "exit" ∧ ("abc" : String).utf8ByteSize ≠ 4 ∧
      SelfConnection.wait_for_message "abc" =
        RustOutcome.ok (Message.toString Message.BadMessage)) ∧
    (("e2e4" : String) ≠ "exit" ∧ ("e2e4" : String).utf8ByteSize = 4 ∧
      SelfConnection.wait_for_message "e2e4" =
        RustOutcome.ok (Message.toString Message.MakeMove ++ " " ++ "e2e4")) :=
  ⟨⟨by decide, by decide, selfInputClassification.2.1 "abc" (by decide) (by decide)⟩,
   ⟨by decide, by decide, selfInputClassification.2.2 "e2e4" (by decide) (by decide)⟩⟩

/-- C6 counterexample: the replace pass can recreate a delimiter. A single read
delivering the bytes CR CR LF LF contains the delimiter, so the loop returns,
but the one-pass removal of CR LF from CR CR LF LF leaves exactly CR LF: the
returned text does contain an occurrence of the delimiter. -/
theorem tcpDelimiterRecreated :
    TcpConnection.wait_for_message 2 [Except.ok [13, 13, 10, 10]] [] =
      RustOutcome.ok [13, 10] ∧
    containsDelim [13, 10] = true := by
  constructor
  · decide
  · rfl

/-- C6 amended: whenever TcpConnection::wait_for_message returns, the returned
text contains no NUL byte (every NUL is removed, and the delimiter pass adds no
byte); the delimiter is removed in one left-to-right non-overlapping pass over
the NUL-stripped buffer, which can itself recreate a delimiter occurrence (CR
CR LF LF yields CR LF), so the returned text is not always delimiter-free. The
accumulation buffer of each call starts empty (a fresh local in the source). -/
theorem tcpResultHasNoNullBytes :
    ∀ (fuel : Nat) (reads : List (Except String (List Nat))) (msg m : List Nat),
      TcpConnection.wait_for_message fuel reads msg = RustOutcome.ok m →
      m.all (fun b => b != 0) = true := by
  intro fuel
  induction fuel with
  | zero =>
    intro reads msg m h
    exact absurd h (by simp [TcpConnection.wait_for_message])
  | succ n ih =>
    intro reads msg m h
    simp only [TcpConnection.wait_for_message] at h
    by_cases hd : containsDelim msg = true
    · rw [if_pos hd] at h
      simp only [RustOutcome.ok.injEq] at h
      rw [← h]
      exact stripMessage_no_nulls msg
    · rw [if_neg hd] at h
      cases reads with
      | nil => exact absurd h (by simp)
      | cons r rest =>
        cases r with
        | error e => exact absurd h (by simp)
        | ok chunk =>
          dsimp only at h
          by_cases hu : utf8Valid (padChunk chunk) = true
          · rw [if_pos hu] at h
            by_cases hh : ((padChunk chunk).head? == some 0) = true
            · rw [if_pos hh] at h
              simp only [RustOutcome.ok.injEq] at h
              rw [← h]
              exact stripMessage_no_nulls (msg ++ padChunk chunk)
            · rw [if_neg hh] at h
              exact ih rest (msg ++ padChunk chunk) m h
          · rw [if_neg hu] at h
            exact absurd h (by simp)

/-- Witness for C6: a read delivering "hi\r\n" returns the bytes of "hi",
which contain no NUL byte. -/
theorem tcpResultHasNoNullBytes_witness :
    TcpConnection.wait_for_message 2 [Except.ok (strBytes "hi\r\n")] [] =
      RustOutcome.ok (strBytes "hi") ∧
    (strBytes "hi").all (fun b => b != 0) = true :=
  ⟨by decide,
   tcpResultHasNoNullBytes 2 [Except.ok (strBytes "hi\r\n")] [] (strBytes "hi") (by decide)⟩

/-- C7: a read iteration entered with no delimiter yet whose 512-byte buffer
has NUL as its first byte (and decodes as UTF-8) appends the buffer, breaks
out of the accumulation loop, and returns the stripped accumulated text, even
though the delimiter was never seen. -/
theorem tcpNullFirstByteBreaks (fuel : Nat) (chunk : List Nat)
    (reads : List (Except String (List Nat))) (msg : List Nat)
    (h1 : containsDelim msg = false) (h2 : utf8Valid (padChunk chunk) = true)
    (h3 : ((padChunk chunk).head? == some 0) = true) :
    TcpConnection.wait_for_message (fuel + 1) (Except.ok chunk :: reads) msg =
      RustOutcome.ok (stripMessage (msg ++ padChunk chunk)) := by
  simp [TcpConnection.wait_for_message, h1, h2, h3]

/-- Witness for C7: an empty read (all 512 bytes stay NUL) makes the loop
return immediately with the stripped buffer. -/
theorem tcpNullFirstByteBreaks_witness :
    containsDelim [] = false ∧ utf8Valid (padChunk []) = true ∧
    ((padChunk []).head? == some 0) = true ∧
    TcpConnection.wait_for_message 1 [Except.ok []] [] =
      RustOutcome.ok (stripMessage ([] ++ padChunk [])) :=
  ⟨rfl, by decide, by decide, tcpNullFirstByteBreaks 0 [] [] [] rfl (by decide) (by decide)⟩

/-- C8 counterexample: HttpConnection::get_message does not return the empty
text — it returns the fixed text "Nothing". -/
theorem httpGetMessageNotEmpty :
    (HttpConnection.get_message cfg0 == RustOutcome.ok "") = false ∧
    HttpConnection.get_message cfg0 = RustOutcome.ok "Nothing" := by
  decide

/-- C8 amended: for every channel state, HttpConnection::get_message returns
successfully with the fixed non-empty placeholder text "Nothing", performing
no transport operation (it is a pure constant of the state). -/
theorem httpGetMessageConstant :
    ∀ c : HttpConnection, HttpConnection.get_message c = RustOutcome.ok "Nothing" :=
  fun _ => rfl

/-- C2: HttpConnection::wait_for_message never delivers the same payload twice
in a row: a returned payload always differs from the previous_message field,
the returned state records the payload as the new previous_message, and an
iteration whose poll repeats the stored payload does not return — it only
advances to the next poll. -/
theorem httpNoDuplicateDelivery :
    (∀ (fuel : Nat) (respond : String → Nat → PollEvent) (c : HttpConnection)
        (m : String) (c' : HttpConnection),
        HttpConnection.wait_for_message fuel respond c = RustOutcome.ok (m, c') →
        m ≠ c.previous_message ∧ c'.previous_message = m) ∧
    (∀ (fuel i : Nat) (respond : String → Nat → PollEvent) (c : HttpConnection),
        unchangedPoll c.previous_message
          (respond (c.endpoint ++ "/clients/" ++ c.other_player) i) = true →
        HttpConnection.waitLoop (fuel + 1) respond i c =
          HttpConnection.waitLoop fuel respond (i + 1) c) := by
  constructor
  · intro fuel respond c m c' h
    obtain ⟨hne, hc⟩ := waitLoop_ok_inv respond c fuel 0 m c' h
    rw [hc]
    exact ⟨hne, rfl⟩
  · intro fuel i respond c h
    exact waitLoop_unchanged_step fuel i respond c h

/-- Witness for C2: from the state that last delivered "hello one", a peer
payload "make_move e2e4" is returned and recorded. -/
theorem httpNoDuplicateDelivery_witness :
    HttpConnection.wait_for_message 1 movePoll cfg0 =
      RustOutcome.ok ("make_move e2e4", cfgAfter) ∧
    ("make_move e2e4" ≠ cfg0.previous_message ∧
      cfgAfter.previous_message = "make_move e2e4") :=
  ⟨by decide, httpNoDuplicateDelivery.1 1 movePoll cfg0 "make_move e2e4" cfgAfter (by decide)⟩

/-- C3: the retry-budget constant is 5, yet the poll loop enforces no maximum
iteration count: if every poll of the loop's URL repeats the stored payload
(with a benign status), wait_for_message does not return for any amount of
fuel — in particular for any number of iterations beyond the nominal budget.
The one-second sleep between polls is elided (real time is not modelled). -/
theorem httpPollLoopUnbounded :
    RETRY_ATTEMPTS_HTTP = 5 ∧
    ∀ (fuel : Nat) (respond : String → Nat → PollEvent) (c : HttpConnection),
      (∀ i, unchangedPoll c.previous_message
        (respond (c.endpoint ++ "/clients/" ++ c.other_player) i) = true) →
      HttpConnection.wait_for_message fuel respond c = RustOutcome.blocked := by
  refine ⟨rfl, ?_⟩
  intro fuel respond c h
  exact waitLoop_unchanged_blocked respond c h fuel 0

/-- Witness for C3: a peer that keeps repeating "hello one" leaves the loop
blocked after 9 polls, well past the nominal budget of 5. -/
theorem httpPollLoopUnbounded_witness :
    (∀ i : Nat, unchangedPoll cfg0.previous_message
      (constPoll (cfg0.endpoint ++ "/clients/" ++ cfg0.other_player) i) = true) ∧
    HttpConnection.wait_for_message 9 constPoll cfg0 = RustOutcome.blocked :=
  ⟨fun _ => rfl, httpPollLoopUnbounded.2 9 constPoll cfg0 (fun _ => rfl)⟩

/-- C9: HttpConnection::new always sets other_player to the constant "one"
(whatever the endpoint and client name), no operation changes the field —
wait_for_message only replaces previous_message, send_message returns the
state unchanged — and the poll loop consults its event source only at the URL
endpoint ++ "/clients/" ++ other_player, which for a freshly built connection
is endpoint ++ "/clients/one". -/
theorem httpOtherPlayerInvariant :
    (∀ (endpoint client_name : String) (join : Except String (Option String))
        (c : HttpConnection),
        HttpConnection.new endpoint client_name join = RustOutcome.ok c →
        c.other_player = "one" ∧ c.endpoint = endpoint ∧
          c.endpoint ++ "/clients/" ++ c.other_player = endpoint ++ "/clients/" ++ "one") ∧
    (∀ (fuel : Nat) (respond : String → Nat → PollEvent) (c : HttpConnection)
        (m : String) (c' : HttpConnection),
        HttpConnection.wait_for_message fuel respond c = RustOutcome.ok (m, c') →
        c'.other_player = c.other_player ∧ c'.endpoint = c.endpoint) ∧
    (∀ (c : HttpConnection) (msg : String) (send : Except String Unit) (b : Bool)
        (c' : HttpConnection),
        HttpConnection.send_message c msg send = RustOutcome.ok (b, c') → c' = c) ∧
    (∀ (fuel i : Nat) (c : HttpConnection) (respond respond' : String → Nat → PollEvent),
        (∀ j, respond (c.endpoint ++ "/clients/" ++ c.other_player) j =
              respond' (c.endpoint ++ "/clients/" ++ c.other_player) j) →
        HttpConnection.waitLoop fuel respond i c =
          HttpConnection.waitLoop fuel respond' i c) := by
  refine ⟨?_, ?_, ?_, ?_⟩
  · intro endpoint client_name join c h
    cases join with
    | error e => exact absurd h (by simp [HttpConnection.new])
    | ok ob =>
      cases ob with
      | none => exact absurd h (by simp [HttpConnection.new])
      | some r =>
        simp only [HttpConnection.new, RustOutcome.ok.injEq] at h
        rw [← h]
        exact ⟨rfl, rfl, rfl⟩
  · intro fuel respond c m c' h
    obtain ⟨_, hc⟩ := waitLoop_ok_inv respond c fuel 0 m c' h
    rw [hc]
    exact ⟨rfl, rfl⟩
  · intro c msg send b c' h
    cases send with
    | error e => exact absurd h (by simp [HttpConnection.send_message])
    | ok u =>
      simp only [HttpConnection.send_message, RustOutcome.ok.injEq, Prod.mk.injEq] at h
      exact h.2.symm
  · intro fuel i c respond respond' h
    exact waitLoop_url_only respond respond' c h fuel i

/-- Witness for C9: a fresh connection for endpoint "http://relay" and client
name "two" has other_player "one" and polls "http://relay/clients/one". -/
theorem httpOtherPlayerInvariant_witness :
    HttpConnection.new "http://relay" "two" (Except.ok (some "joined")) =
      RustOutcome.ok cfgNew ∧
    (cfgNew.other_player = "one" ∧ cfgNew.endpoint = "http://relay" ∧
      cfgNew.endpoint ++ "/clients/" ++ cfgNew.other_player =
        "http://relay" ++ "/clients/" ++ "one") :=
  ⟨rfl, httpOtherPlayerInvariant.1 "http://relay" "two" (Except.ok (some "joined")) cfgNew rfl⟩

/-- C10: for every backend, wait_for_message and get_message never produce the
Err variant of their result type: the Echo backend returns fixed Ok values;
Self, Tcp and Http never return Err for any input events; the get_message of
each backend is a fixed Ok constant; and each internal failure path panics
instead of returning Err — a read error panics, a UTF-8 decode failure panics,
an HTTP transport failure panics, a client-error status panics, and a
response-body parse failure panics. -/
theorem waitAndGetNeverErr :
    EchoConnection.wait_for_message = RustOutcome.ok "make_move e7e5" ∧
    EchoConnection.get_message = RustOutcome.ok "Nothing" ∧
    (∀ v : String, (SelfConnection.wait_for_message v).isErr = false) ∧
    SelfConnection.get_message = RustOutcome.ok "Nothing" ∧
    (∀ (fuel : Nat) (reads : List (Except String (List Nat))) (msg : List Nat),
        (TcpConnection.wait_for_message fuel reads msg).isErr = false) ∧
    TcpConnection.get_message = RustOutcome.ok "" ∧
    (∀ (fuel : Nat) (respond : String → Nat → PollEvent) (c : HttpConnection),
        (HttpConnection.wait_for_message fuel respond c).isErr = false) ∧
    (∀ c : HttpConnection, (HttpConnection.get_message c).isErr = false) ∧
    (∀ (fuel : Nat) (reads : List (Except String (List Nat))) (msg : List Nat) (e : String),
        containsDelim msg = false →
        TcpConnection.wait_for_message (fuel + 1) (Except.error e :: reads) msg =
          RustOutcome.panicked ("Connection error: " ++ e)) ∧
    (∀ (fuel : Nat) (reads : List (Except String (List Nat))) (msg chunk : List Nat),
        containsDelim msg = false → utf8Valid (padChunk chunk) = false →
        TcpConnection.wait_for_message (fuel + 1) (Except.ok chunk :: reads) msg =
          RustOutcome.panicked "Decoding error") ∧
    (∀ (fuel i : Nat) (respond : String → Nat → PollEvent) (c : HttpConnection) (e : String),
        respond (c.endpoint ++ "/clients/" ++ c.other_player) i = PollEvent.transportError e →
        HttpConnection.waitLoop (fuel + 1) respond i c = RustOutcome.panicked e) ∧
    (∀ (fuel i : Nat) (respond : String → Nat → PollEvent) (c : HttpConnection)
        (status : Nat) (body : Except String (Option String)),
        respond (c.endpoint ++ "/clients/" ++ c.other_player) i = PollEvent.response status body →
        400 ≤ status → status ≤ 499 →
        HttpConnection.waitLoop (fuel + 1) respond i c =
          RustOutcome.panicked ("Client error: " ++ toString status)) ∧
    (∀ (fuel i : Nat) (respond : String → Nat → PollEvent) (c : HttpConnection)
        (status : Nat) (err : String),
        respond (c.endpoint ++ "/clients/" ++ c.other_player) i =
          PollEvent.response status (Except.error err) →
        status < 400 →
        HttpConnection.waitLoop (fuel + 1) respond i c =
          RustOutcome.panicked ("Bad response from server: " ++ err)) := by
  refine ⟨rfl, rfl, ?_, rfl, ?_, rfl, ?_, fun _ => rfl, ?_, ?_, ?_, ?_, ?_⟩
  · intro v
    simp only [SelfConnection.wait_for_message]
    by_cases h1 : v = "exit"
    · rw [if_pos h1]
      rfl
    · rw [if_neg h1]
      by_cases h2 : v.utf8ByteSize ≠ 4
      · rw [if_pos h2]
        rfl
      · rw [if_neg h2]
        rfl
  · exact tcpWait_not_err
  · intro fuel respond c
    exact waitLoop_not_err respond c fuel 0
  · intro fuel reads msg e h
    simp [TcpConnection.wait_for_message, h]
  · intro fuel reads msg chunk h1 h2
    simp [TcpConnection.wait_for_message, h1, h2]
  · intro fuel i respond c e hev
    simp only [HttpConnection.waitLoop]
    rw [hev]
  · intro fuel i respond c status body hev h1 h2
    simp only [HttpConnection.waitLoop]
    rw [hev]
    dsimp only
    rw [if_pos ⟨h1, h2⟩]
  · intro fuel i respond c status err hev h1
    simp only [HttpConnection.waitLoop]
    rw [hev]
    dsimp only
    rw [if_neg (by omega)]

/-- Witness for C10: a read error and an invalid UTF-8 buffer both panic (no
Err value), and the isErr test on these outcomes is false. -/
theorem waitAndGetNeverErr_witness :
    containsDelim [] = false ∧
    TcpConnection.wait_for_message 1 [Except.error "connection reset"] [] =
      RustOutcome.panicked ("Connection error: " ++ "connection reset") ∧
    utf8Valid (padChunk [255]) = false ∧
    TcpConnection.wait_for_message 1 [Except.ok [255]] [] =
      RustOutcome.panicked "Decoding error" :=
  ⟨rfl, waitAndGetNeverErr.2.2.2.2.2.2.2.2.1 0 [] [] "connection reset" rfl,
   by decide, waitAndGetNeverErr.2.2.2.2.2.2.2.2.2.1 0 [] [] [255] rfl (by decide)⟩
